import Mathlib

/-!
Shallow embedding of `src/model.ts` of the management-sdk repository: the
change-accumulation and payload-normalization engine.  JS objects with
optional keys are embedded as Lean structures whose optional keys are
`Option` fields (`none` = key absent); a key whose value may itself be
`undefined` while present is a double `Option`.  Operations that can throw
are embedded as `Except String`.  Enums and collaborator classes that live
in files of this repository outside `src/` (util.ts, field.ts, migration.ts,
renderer.ts, generated/schema.ts) are modelled from the spec where noted.
-/

namespace ManagementSdk

/-- Modelled from the spec: `MutationMode` enum from util.ts (not in src/);
spec section 3 gives the members Create, Update, Delete. -/
inductive MutationMode where
  | Create
  | Update
  | Delete
deriving DecidableEq, Repr

/-- Modelled from the spec: `RelationType` enum from util.ts (not in src/);
spec section 3 gives OneToOne, OneToMany, ManyToOne, ManyToMany. -/
inductive RelationType where
  | OneToOne
  | OneToMany
  | ManyToOne
  | ManyToMany
deriving DecidableEq, Repr

/-- Modelled from the spec: `FieldType` variant tag from field.ts (not in
src/); spec section 3 gives the five field categories. -/
inductive FieldType where
  | SimpleField
  | RemoteField
  | RelationalField
  | UnionField
  | EnumerableField
deriving DecidableEq, Repr

/-- Modelled from the spec: scalar simple-field types from the generated
type catalogue (not in src/).  model.ts dispatches on String, Int and
Float; all other scalar members fall to the default branch of the
validation extractor. -/
inductive GraphQLSimpleFieldType where
  | String
  | Int
  | Float
  | Boolean
  | Date
  | Datetime
  | Json
  | Location
  | Color
deriving DecidableEq, Repr

/-- Modelled from the spec: a min/max range validation input from the
generated type catalogue (not in src/). -/
structure FieldValidationRange where
  min : Option Int
  max : Option Int
deriving DecidableEq, Repr

/-- Modelled from the spec: a regular-expression validation input from the
generated type catalogue (not in src/). -/
structure FieldValidationRegEx where
  regex : String
deriving DecidableEq, Repr

/-- Interface `FieldValidationArgs` of model.ts: the type-agnostic validation request
a caller may attach to a simple field. -/
structure FieldValidationArgs where
  range : Option FieldValidationRange
  characters : Option FieldValidationRange
  listItemCount : Option FieldValidationRange
  «matches» : Option FieldValidationRegEx
  notMatches : Option FieldValidationRegEx
deriving DecidableEq, Repr

/-- The numeric (`Int` / `Float`) branch of the extracted validations.  The
`range` key is always written by the extractor; `listItemCount` is written
only when the field is list-valued, and its written value may itself be
absent, hence the double `Option`. -/
structure NumericValidations where
  range : Option FieldValidationRange
  listItemCount : Option (Option FieldValidationRange)
deriving DecidableEq, Repr

/-- String branch of the extracted validations. -/
structure StringValidations where
  characters : Option FieldValidationRange
  «matches» : Option FieldValidationRegEx
  notMatches : Option FieldValidationRegEx
  listItemCount : Option (Option FieldValidationRange)
deriving DecidableEq, Repr

/-- Type `GraphQLSimpleFieldValidationsInput`: the type-specific validation
structure produced by `extractFieldValidations`. -/
structure SimpleFieldValidationsInput where
  Int : Option NumericValidations
  Float : Option NumericValidations
  String : Option StringValidations
deriving DecidableEq, Repr

/-- Argument bag of `addSimpleField` / `updateSimpleField` (JS mutable
object; every caller-optional key is an `Option`). -/
structure SimpleFieldArgs where
  apiId : String
  displayName : Option String
  type : Option GraphQLSimpleFieldType
  isList : Option Bool
  isRequired : Option Bool
  validations : Option FieldValidationArgs
  formRenderer : Option String
deriving DecidableEq, Repr

/-- The emitted simple-field payload: the argument bag after normalization,
with `modelApiId` injected and `validations` replaced by the extracted
structure.  `type := none` represents the key being absent. -/
structure SimpleFieldPayload where
  apiId : String
  displayName : Option String
  type : Option GraphQLSimpleFieldType
  isList : Option Bool
  isRequired : Option Bool
  validations : Option SimpleFieldValidationsInput
  formRenderer : Option String
  modelApiId : String
deriving DecidableEq, Repr

/-- Renders an `Option GraphQLSimpleFieldType` the way the JS template
literal in the extractor's error message stringifies `fieldArgs.type`
(an absent key prints as `undefined`). -/
def simpleFieldTypeName : Option GraphQLSimpleFieldType → String
  | none => ("undefined")
  | some GraphQLSimpleFieldType.String => ("STRING")
  | some GraphQLSimpleFieldType.Int => ("INT")
  | some GraphQLSimpleFieldType.Float => ("FLOAT")
  | some GraphQLSimpleFieldType.Boolean => ("BOOLEAN")
  | some GraphQLSimpleFieldType.Date => ("DATE")
  | some GraphQLSimpleFieldType.Datetime => ("DATETIME")
  | some GraphQLSimpleFieldType.Json => ("JSON")
  | some GraphQLSimpleFieldType.Location => ("LOCATION")
  | some GraphQLSimpleFieldType.Color => ("COLOR")

/-- Function `extractFieldValidations` of model.ts: switches on the declared type;
Int and Float receive a range (plus listItemCount when the field is a
list), String receives characters/matches/notMatches (plus listItemCount
when a list), anything else throws. -/
def extractFieldValidations (fieldArgs : SimpleFieldArgs) :
    Except String SimpleFieldValidationsInput :=
  match fieldArgs.type with
  | some GraphQLSimpleFieldType.Int =>
      Except.ok
        { Int := some
            { range := fieldArgs.validations.bind (fun v => v.range)
              listItemCount :=
                if fieldArgs.isList.getD false then
                  some (fieldArgs.validations.bind (fun v => v.listItemCount))
                else none }
          Float := none
          String := none }
  | some GraphQLSimpleFieldType.Float =>
      Except.ok
        { Int := none
          Float := some
            { range := fieldArgs.validations.bind (fun v => v.range)
              listItemCount :=
                if fieldArgs.isList.getD false then
                  some (fieldArgs.validations.bind (fun v => v.listItemCount))
                else none }
          String := none }
  | some GraphQLSimpleFieldType.String =>
      Except.ok
        { Int := none
          Float := none
          String := some
            { characters := fieldArgs.validations.bind (fun v => v.characters)
              «matches» := fieldArgs.validations.bind (fun v => v.«matches»)
              notMatches := fieldArgs.validations.bind (fun v => v.notMatches)
              listItemCount :=
                if fieldArgs.isList.getD false then
                  some (fieldArgs.validations.bind (fun v => v.listItemCount))
                else none } }
  | t =>
      Except.error (("field validations not supported for ") ++ simpleFieldTypeName t)

/-- A header value of a remote config, before normalization: either a JS
scalar (non-array) value or an array of strings. -/
inductive HeaderValue where
  | scalar : String → HeaderValue
  | list : List String → HeaderValue
deriving DecidableEq, Repr

/-- The per-entry header normalization of `addRemoteField`: wraps a
non-array value into an array, leaves an array as it is
(`Array.isArray(v) ? v : [v]`). -/
def normalizeHeaderValue : HeaderValue → HeaderValue
  | HeaderValue.scalar s => HeaderValue.list [s]
  | HeaderValue.list l => HeaderValue.list l

/-- The loop over `Object.entries(fieldArgs.remoteConfig.headers)` in
`addRemoteField`: every entry's value is normalized in place. -/
def normalizeHeaders (hs : List (String × HeaderValue)) : List (String × HeaderValue) :=
  hs.map (fun kv => (kv.1, normalizeHeaderValue kv.2))

/-- The caller-supplied remote config (all keys optional except `url`). -/
structure RemoteConfigArgs where
  url : String
  method : Option String
  headers : Option (List (String × HeaderValue))
  payloadFieldApiIds : Option (List String)
deriving DecidableEq, Repr

/-- The remote config after `addRemoteField` normalization: headers present
(defaulted to the empty mapping), payloadFieldApiIds defaulted to the empty
list, method defaulted to GET. -/
structure RemoteConfigPayload where
  url : String
  method : String
  headers : List (String × HeaderValue)
  payloadFieldApiIds : List String
deriving DecidableEq, Repr

/-- Argument bag of `addRemoteField`. -/
structure RemoteFieldArgs where
  apiId : String
  displayName : Option String
  remoteConfig : RemoteConfigArgs
deriving DecidableEq, Repr

/-- The emitted remote-field payload (`type` is forced to the remote wire
type, a string constant of the generated schema). -/
structure RemoteFieldPayload where
  apiId : String
  displayName : Option String
  type : String
  remoteConfig : RemoteConfigPayload
  modelApiId : String
deriving DecidableEq, Repr

/-- Method `addRemoteField` of model.ts: injects `modelApiId`, forces the remote
type, normalizes headers (defaulting to an empty mapping when absent) and
defaults `payloadFieldApiIds` and `method`.  The `headers` mapping is a
key-value list by type, so the constructor-name guard of the JS code
cannot fire here and the operation is total. -/
def addRemoteField (modelApiId : String) (fieldArgs : RemoteFieldArgs) :
    RemoteFieldPayload :=
  { apiId := fieldArgs.apiId
    displayName := fieldArgs.displayName
    type := ("REMOTE")
    remoteConfig :=
      { url := fieldArgs.remoteConfig.url
        headers :=
          match fieldArgs.remoteConfig.headers with
          | some hs => normalizeHeaders hs
          | none => []
        payloadFieldApiIds := fieldArgs.remoteConfig.payloadFieldApiIds.getD []
        method := fieldArgs.remoteConfig.method.getD ("GET") }
    modelApiId := modelApiId }

/-- Method `updateSimpleField` of model.ts: injects `modelApiId`, runs the
validation extractor when a validation request is present (propagating its
error), and drops the `type` key from the outgoing payload via the
destructuring `const (type, ...fieldChanges) = fieldArgs`. -/
def updateSimpleField (modelApiId : String) (fieldArgs : SimpleFieldArgs) :
    Except String SimpleFieldPayload :=
  match fieldArgs.validations with
  | some _ =>
      match extractFieldValidations fieldArgs with
      | Except.error e => Except.error e
      | Except.ok v =>
          Except.ok
            { apiId := fieldArgs.apiId
              displayName := fieldArgs.displayName
              type := none
              isList := fieldArgs.isList
              isRequired := fieldArgs.isRequired
              validations := some v
              formRenderer := fieldArgs.formRenderer
              modelApiId := modelApiId }
  | none =>
      Except.ok
        { apiId := fieldArgs.apiId
          displayName := fieldArgs.displayName
          type := none
          isList := fieldArgs.isList
          isRequired := fieldArgs.isRequired
          validations := none
          formRenderer := fieldArgs.formRenderer
          modelApiId := modelApiId }

/-- Modelled from the spec: `Renderer.SingleLine` of renderer.ts (not in
src/), the single-line form-rendering hint. -/
def singleLineRenderer : String := ("GCMS_SINGLE_LINE")

/-- Method `addSimpleField` of model.ts: injects `modelApiId`, defaults the form
renderer to single-line for String-typed fields, and runs the validation
extractor when a validation request is present. -/
def addSimpleField (modelApiId : String) (fieldArgs : SimpleFieldArgs) :
    Except String SimpleFieldPayload :=
  let formRenderer :=
    if fieldArgs.type = some GraphQLSimpleFieldType.String then
      some (fieldArgs.formRenderer.getD singleLineRenderer)
    else fieldArgs.formRenderer
  match fieldArgs.validations with
  | some _ =>
      match extractFieldValidations fieldArgs with
      | Except.error e => Except.error e
      | Except.ok v =>
          Except.ok
            { apiId := fieldArgs.apiId
              displayName := fieldArgs.displayName
              type := fieldArgs.type
              isList := fieldArgs.isList
              isRequired := fieldArgs.isRequired
              validations := some v
              formRenderer := formRenderer
              modelApiId := modelApiId }
  | none =>
      Except.ok
        { apiId := fieldArgs.apiId
          displayName := fieldArgs.displayName
          type := fieldArgs.type
          isList := fieldArgs.isList
          isRequired := fieldArgs.isRequired
          validations := none
          formRenderer := formRenderer
          modelApiId := modelApiId }

/-- A caller-supplied reverse relational field (without `modelApiId` and
`isList`, which the builder derives). -/
structure ReverseRelationalFieldArgs where
  apiId : String
  displayName : String
  isHidden : Option Bool
deriving DecidableEq, Repr

/-- The emitted reverse relational field. -/
structure ReverseRelationalFieldPayload where
  apiId : String
  displayName : String
  modelApiId : String
  isList : Bool
  isHidden : Option Bool
deriving DecidableEq, Repr

/-- Argument bag of `addRelationalField` (`model` and `relationType` are
the convenience inputs the builder strips before emitting). -/
structure RelationalFieldArgs where
  apiId : String
  displayName : Option String
  type : Option String
  model : String
  relationType : RelationType
  reverseField : Option ReverseRelationalFieldArgs
  isRequired : Option Bool
deriving DecidableEq, Repr

/-- The emitted relational-field payload. -/
structure RelationalFieldPayload where
  apiId : String
  displayName : Option String
  type : String
  isList : Bool
  isRequired : Option Bool
  reverseField : ReverseRelationalFieldPayload
  modelApiId : String
deriving DecidableEq, Repr

/-- Method `addRelationalField` of model.ts: injects `modelApiId`, resolves the
wire kind to ASSET or RELATION, synthesizes the reverse field when absent,
derives list-ness on both sides from the relation type, applies the
ASSET-specific overrides (default `isRequired`, reverse side forced to a
hidden list) or strips `isRequired`, and drops the convenience inputs. -/
def addRelationalField (modelApiId : String) (fieldArgs : RelationalFieldArgs) :
    RelationalFieldPayload :=
  let ty : String :=
    if fieldArgs.type = some ("ASSET") ∨ fieldArgs.model = ("Asset") then ("ASSET")
    else ("RELATION")
  let rev : ReverseRelationalFieldArgs :=
    match fieldArgs.reverseField with
    | some r => r
    | none =>
        { apiId := ("related") ++ modelApiId
          displayName := ("Related ") ++ modelApiId
          isHidden := none }
  let isList : Bool :=
    fieldArgs.relationType = RelationType.OneToMany ∨
      fieldArgs.relationType = RelationType.ManyToMany
  let revIsList : Bool :=
    fieldArgs.relationType = RelationType.ManyToOne ∨
      fieldArgs.relationType = RelationType.ManyToMany
  if ty = ("ASSET") then
    { apiId := fieldArgs.apiId
      displayName := fieldArgs.displayName
      type := ty
      isList := isList
      isRequired := some (fieldArgs.isRequired.getD false)
      reverseField :=
        { apiId := rev.apiId
          displayName := rev.displayName
          modelApiId := fieldArgs.model
          isList := true
          isHidden := some true }
      modelApiId := modelApiId }
  else
    { apiId := fieldArgs.apiId
      displayName := fieldArgs.displayName
      type := ty
      isList := isList
      isRequired := none
      reverseField :=
        { apiId := rev.apiId
          displayName := rev.displayName
          modelApiId := fieldArgs.model
          isList := revIsList
          isHidden := rev.isHidden }
      modelApiId := modelApiId }

/-- A caller-supplied reverse union field (without `modelApiIds` and
`isList`, which the builder derives). -/
structure ReverseUnionFieldArgs where
  apiId : String
  displayName : String
deriving DecidableEq, Repr

/-- The emitted reverse union field. -/
structure ReverseUnionFieldPayload where
  apiId : String
  displayName : String
  modelApiIds : List String
  isList : Bool
deriving DecidableEq, Repr

/-- Argument bag of `addUnionField` (`models` and `relationType` are the
convenience inputs; `models` is an `Option` because the JS code guards
against its absence). -/
structure UnionFieldArgs where
  apiId : String
  displayName : Option String
  models : Option (List String)
  relationType : RelationType
  reverseField : Option ReverseUnionFieldArgs
deriving DecidableEq, Repr

/-- The emitted union-field payload. -/
structure UnionFieldPayload where
  apiId : String
  displayName : Option String
  isList : Bool
  reverseField : ReverseUnionFieldPayload
  modelApiId : String
deriving DecidableEq, Repr

/-- Method `addUnionField` of model.ts: throws when the target model list is
absent or empty; otherwise synthesizes the reverse field when absent,
points it at the model list, derives list-ness on both sides from the
relation type and drops the convenience inputs. -/
def addUnionField (modelApiId : String) (fieldArgs : UnionFieldArgs) :
    Except String UnionFieldPayload :=
  match fieldArgs.models with
  | none => Except.error (("models cannot be empty"))
  | some models =>
      if models.length = 0 then Except.error (("models cannot be empty"))
      else
        let rev : ReverseUnionFieldArgs :=
          match fieldArgs.reverseField with
          | some r => r
          | none =>
              { apiId := ("related") ++ modelApiId
                displayName := ("Related ") ++ modelApiId }
        Except.ok
          { apiId := fieldArgs.apiId
            displayName := fieldArgs.displayName
            isList :=
              fieldArgs.relationType = RelationType.OneToMany ∨
                fieldArgs.relationType = RelationType.ManyToMany
            reverseField :=
              { apiId := rev.apiId
                displayName := rev.displayName
                modelApiIds := models
                isList :=
                  fieldArgs.relationType = RelationType.ManyToOne ∨
                    fieldArgs.relationType = RelationType.ManyToMany }
            modelApiId := modelApiId }

/-- Argument bag of `updateRelationalField` (a sparse update partial). -/
structure RelationalUpdateArgs where
  apiId : String
  displayName : Option String
  isList : Option Bool
deriving DecidableEq, Repr

/-- The emitted relational-update payload. -/
structure RelationalUpdatePayload where
  apiId : String
  displayName : Option String
  isList : Option Bool
  modelApiId : String
deriving DecidableEq, Repr

/-- Method `updateRelationalField` of model.ts: only injects `modelApiId`. -/
def updateRelationalField (modelApiId : String) (fieldArgs : RelationalUpdateArgs) :
    RelationalUpdatePayload :=
  { apiId := fieldArgs.apiId
    displayName := fieldArgs.displayName
    isList := fieldArgs.isList
    modelApiId := modelApiId }

/-- Argument bag of `updateUnionField`. -/
structure UnionUpdateArgs where
  apiId : String
  displayName : Option String
  models : Option (List String)
deriving DecidableEq, Repr

/-- The reverse field written by `updateUnionField`: the JS code writes
`reverseField = (modelApiIds: fieldArgs.models)`, so the key is present
with a possibly-undefined value. -/
structure ReverseUnionUpdatePayload where
  modelApiIds : Option (List String)
deriving DecidableEq, Repr

/-- The emitted union-update payload. -/
structure UnionUpdatePayload where
  apiId : String
  displayName : Option String
  reverseField : ReverseUnionUpdatePayload
  modelApiId : String
deriving DecidableEq, Repr

/-- Method `updateUnionField` of model.ts: injects `modelApiId`, repackages the
convenience `models` list into `reverseField.modelApiIds` and drops the
`models` key. -/
def updateUnionField (modelApiId : String) (fieldArgs : UnionUpdateArgs) :
    UnionUpdatePayload :=
  { apiId := fieldArgs.apiId
    displayName := fieldArgs.displayName
    reverseField := { modelApiIds := fieldArgs.models }
    modelApiId := modelApiId }

/-- Argument bag of `addEnumerableField` / `updateEnumerableField`. -/
structure EnumerableFieldArgs where
  apiId : String
  displayName : Option String
  enumerationApiId : Option String
deriving DecidableEq, Repr

/-- The emitted enumerable-field payload. -/
structure EnumerableFieldPayload where
  apiId : String
  displayName : Option String
  enumerationApiId : Option String
  modelApiId : String
deriving DecidableEq, Repr

/-- Method `addEnumerableField` of model.ts: throws when `enumerationApiId` is
missing (the JS truthiness test also fires on the empty string), then
injects `modelApiId`. -/
def addEnumerableField (modelApiId : String) (fieldArgs : EnumerableFieldArgs) :
    Except String EnumerableFieldPayload :=
  match fieldArgs.enumerationApiId with
  | none => Except.error (("enumerationApiId is required for enumerable field"))
  | some e =>
      if e = ("") then
        Except.error (("enumerationApiId is required for enumerable field"))
      else
        Except.ok
          { apiId := fieldArgs.apiId
            displayName := fieldArgs.displayName
            enumerationApiId := fieldArgs.enumerationApiId
            modelApiId := modelApiId }

/-- Method `updateEnumerableField` of model.ts: only injects `modelApiId`. -/
def updateEnumerableField (modelApiId : String) (fieldArgs : EnumerableFieldArgs) :
    EnumerableFieldPayload :=
  { apiId := fieldArgs.apiId
    displayName := fieldArgs.displayName
    enumerationApiId := fieldArgs.enumerationApiId
    modelApiId := modelApiId }

/-- The payload carried by `deleteField`: exactly `(apiId, modelApiId)`. -/
structure DeleteFieldPayload where
  apiId : String
  modelApiId : String
deriving DecidableEq, Repr

/-- Method `deleteField` of model.ts. -/
def deleteField (modelApiId : String) (apiId : String) : DeleteFieldPayload :=
  { apiId := apiId, modelApiId := modelApiId }

/-- The normalized payload owned by a field-level change item, one variant
per field category and mutation shape. -/
inductive FieldPayload where
  | simple : SimpleFieldPayload → FieldPayload
  | remote : RemoteFieldPayload → FieldPayload
  | relational : RelationalFieldPayload → FieldPayload
  | relationalUpdate : RelationalUpdatePayload → FieldPayload
  | union : UnionFieldPayload → FieldPayload
  | unionUpdate : UnionUpdatePayload → FieldPayload
  | enumerable : EnumerableFieldPayload → FieldPayload
  | deleted : DeleteFieldPayload → FieldPayload
deriving DecidableEq, Repr

/-- Modelled from the spec: a Change Item of migration.ts / field.ts (not
in src/): a mutation mode, a field category tag and the fully-normalized
payload, immutable once constructed.  The `Field` constructor's omitted
category argument defaults to the simple category. -/
structure ChangeItem where
  mode : MutationMode
  fieldType : FieldType
  payload : FieldPayload
deriving DecidableEq, Repr

/-- One invocation of a builder operation of `ModelClass`, with its
caller-supplied argument bag. -/
inductive Op where
  | addSimpleField : SimpleFieldArgs → Op
  | addRemoteField : RemoteFieldArgs → Op
  | updateSimpleField : SimpleFieldArgs → Op
  | addRelationalField : RelationalFieldArgs → Op
  | addUnionField : UnionFieldArgs → Op
  | updateRelationalField : RelationalUpdateArgs → Op
  | updateUnionField : UnionUpdateArgs → Op
  | addEnumerableField : EnumerableFieldArgs → Op
  | updateEnumerableField : EnumerableFieldArgs → Op
  | deleteField : String → Op
deriving DecidableEq, Repr

/-- Runs one builder operation of `ModelClass` against the accumulator.
Modelled from the spec for the accumulator part: `registerChange` of
migration.ts (not in src/) appends the constructed item unconditionally,
so a successful operation appends exactly one item and a thrown error
reaches the caller before any registration. -/
def runOp (modelApiId : String) (op : Op) (acc : List ChangeItem) :
    Except String (List ChangeItem) :=
  match op with
  | Op.addSimpleField a =>
      match addSimpleField modelApiId a with
      | Except.error e => Except.error e
      | Except.ok p =>
          Except.ok (acc ++ [⟨MutationMode.Create, FieldType.SimpleField,
            FieldPayload.simple p⟩])
  | Op.addRemoteField a =>
      Except.ok (acc ++ [⟨MutationMode.Create, FieldType.RemoteField,
        FieldPayload.remote (addRemoteField modelApiId a)⟩])
  | Op.updateSimpleField a =>
      match updateSimpleField modelApiId a with
      | Except.error e => Except.error e
      | Except.ok p =>
          Except.ok (acc ++ [⟨MutationMode.Update, FieldType.SimpleField,
            FieldPayload.simple p⟩])
  | Op.addRelationalField a =>
      Except.ok (acc ++ [⟨MutationMode.Create, FieldType.RelationalField,
        FieldPayload.relational (addRelationalField modelApiId a)⟩])
  | Op.addUnionField a =>
      match addUnionField modelApiId a with
      | Except.error e => Except.error e
      | Except.ok p =>
          Except.ok (acc ++ [⟨MutationMode.Create, FieldType.UnionField,
            FieldPayload.union p⟩])
  | Op.updateRelationalField a =>
      Except.ok (acc ++ [⟨MutationMode.Update, FieldType.RelationalField,
        FieldPayload.relationalUpdate (updateRelationalField modelApiId a)⟩])
  | Op.updateUnionField a =>
      Except.ok (acc ++ [⟨MutationMode.Update, FieldType.UnionField,
        FieldPayload.unionUpdate (updateUnionField modelApiId a)⟩])
  | Op.addEnumerableField a =>
      match addEnumerableField modelApiId a with
      | Except.error e => Except.error e
      | Except.ok p =>
          Except.ok (acc ++ [⟨MutationMode.Create, FieldType.EnumerableField,
            FieldPayload.enumerable p⟩])
  | Op.updateEnumerableField a =>
      Except.ok (acc ++ [⟨MutationMode.Update, FieldType.EnumerableField,
        FieldPayload.enumerable (updateEnumerableField modelApiId a)⟩])
  | Op.deleteField apiId =>
      Except.ok (acc ++ [⟨MutationMode.Delete, FieldType.SimpleField,
        FieldPayload.deleted (deleteField modelApiId apiId)⟩])

/-- The accumulator state after a builder call whether or not it threw: a
thrown error propagates to the caller and the accumulator keeps its prior
state (JS exception semantics: `registerChange` was never reached). -/
def runOpOrKeep (modelApiId : String) (op : Op) (acc : List ChangeItem) :
    List ChangeItem :=
  match runOp modelApiId op acc with
  | Except.ok acc' => acc'
  | Except.error _ => acc

/-- Method `ModelClass.hasChanges` of model.ts: every mode other than Update
always has changes; an Update has changes exactly when `Object.keys` of
its argument bag counts more than the one guaranteed `apiId` key.  The
argument bag is given by its key list. -/
def hasChanges (mode : MutationMode) (argKeys : List String) : Bool :=
  if mode ≠ MutationMode.Update then true
  else if argKeys.length > 1 then true
  else false

/-- C1: for every call to addRelationalField or addUnionField, the
list-ness of the emitted payload is a deterministic function of the
supplied relationType: OneToOne gives forward and reverse isList false;
OneToMany gives forward true, reverse false; ManyToOne gives forward
false, reverse true; ManyToMany gives both true (for addRelationalField
the reverse side before any ASSET-specific override, i.e. on non-ASSET
calls; the forward side unconditionally). -/
theorem relation_listness_table (m : String) (rargs : RelationalFieldArgs)
    (uargs : UnionFieldArgs) (up : UnionFieldPayload) :
    ((addRelationalField m rargs).isList =
      (match rargs.relationType with
       | RelationType.OneToOne => false
       | RelationType.OneToMany => true
       | RelationType.ManyToOne => false
       | RelationType.ManyToMany => true)) ∧
    (rargs.type ≠ some ("ASSET") → rargs.model ≠ ("Asset") →
      (addRelationalField m rargs).reverseField.isList =
      (match rargs.relationType with
       | RelationType.OneToOne => false
       | RelationType.OneToMany => false
       | RelationType.ManyToOne => true
       | RelationType.ManyToMany => true)) ∧
    (addUnionField m uargs = Except.ok up →
      up.isList =
        (match uargs.relationType with
         | RelationType.OneToOne => false
         | RelationType.OneToMany => true
         | RelationType.ManyToOne => false
         | RelationType.ManyToMany => true) ∧
      up.reverseField.isList =
        (match uargs.relationType with
         | RelationType.OneToOne => false
         | RelationType.OneToMany => false
         | RelationType.ManyToOne => true
         | RelationType.ManyToMany => true)) := by
  refine ⟨?_, ?_, ?_⟩
  · unfold addRelationalField
    split <;> cases rargs.relationType <;> rfl
  · intro h1 h2
    have hcond : ¬(rargs.type = some ("ASSET") ∨ rargs.model = ("Asset")) := by
      simp [h1, h2]
    have hra : (("RELATION") : String) ≠ ("ASSET") := by decide
    simp only [addRelationalField]
    rw [if_neg hcond, if_neg hra]
    cases rargs.relationType <;> rfl
  · intro hu
    cases hm : uargs.models with
    | none => simp [addUnionField, hm] at hu
    | some ms =>
        simp only [addUnionField, hm] at hu
        split at hu
        · simp at hu
        · rw [Except.ok.injEq] at hu
          subst hu
          cases uargs.relationType <;> simp

/-- C1 witness: the table evaluated on a concrete ManyToMany relational
call and a concrete OneToMany union call. -/
theorem relation_listness_table_witness :
    (addRelationalField ("Post")
      { apiId := ("tags"), displayName := none, type := none, model := ("Tag")
        relationType := RelationType.ManyToMany, reverseField := none
        isRequired := none }).reverseField.isList = true ∧
    ({ apiId := ("content"), displayName := none, isList := true
       reverseField := { apiId := ("relatedPost"), displayName := ("Related Post")
                         modelApiIds := [("Video")], isList := false }
       modelApiId := ("Post") } : UnionFieldPayload).isList = true := by
  constructor
  · exact (relation_listness_table ("Post")
      { apiId := ("tags"), displayName := none, type := none, model := ("Tag")
        relationType := RelationType.ManyToMany, reverseField := none
        isRequired := none }
      { apiId := ("content"), displayName := none, models := some [("Video")]
        relationType := RelationType.OneToMany, reverseField := none }
      { apiId := ("content"), displayName := none, isList := true
        reverseField := { apiId := ("relatedPost"), displayName := ("Related Post")
                          modelApiIds := [("Video")], isList := false }
        modelApiId := ("Post") }).2.1 (by decide) (by decide)
  · exact ((relation_listness_table ("Post")
      { apiId := ("tags"), displayName := none, type := none, model := ("Tag")
        relationType := RelationType.ManyToMany, reverseField := none
        isRequired := none }
      { apiId := ("content"), displayName := none, models := some [("Video")]
        relationType := RelationType.OneToMany, reverseField := none }
      { apiId := ("content"), displayName := none, isList := true
        reverseField := { apiId := ("relatedPost"), displayName := ("Related Post")
                          modelApiIds := [("Video")], isList := false }
        modelApiId := ("Post") }).2.2 (by rfl)).1

/-- C2 counterexample: the synthesized reverse field's apiId is derived
from the owning model's apiId, not from the field's apiId, so the call
addRelationalField(apiId "author", model "User", relationType ManyToOne)
on a model whose apiId is "Post" yields reverse apiId "relatedPost" and
display name "Related Post", not "relatedauthor" / "Related author" as
the claim states. -/
theorem reverse_synthesis_counterexample :
    (addRelationalField ("Post")
      { apiId := ("author"), displayName := none, type := none, model := ("User")
        relationType := RelationType.ManyToOne, reverseField := none
        isRequired := none }).reverseField.apiId = ("relatedPost") ∧
    (addRelationalField ("Post")
      { apiId := ("author"), displayName := none, type := none, model := ("User")
        relationType := RelationType.ManyToOne, reverseField := none
        isRequired := none }).reverseField.apiId ≠ ("relatedauthor") := by
  constructor <;> decide

/-- C2 amended: whenever no reverse field is supplied, addRelationalField
registers a Create-mode change item whose synthesized reverse field has
apiId "related" followed by the OWNING MODEL's apiId and displayName
"Related " followed by the owning model's apiId (so the scenario's call
yields "relatedauthor" / "Related author" exactly when the owning model's
apiId is "author"); for ManyToOne the forward side has isList false and
the reverse side isList true. -/
theorem reverse_synthesis (m : String) (rargs : RelationalFieldArgs)
    (acc : List ChangeItem)
    (h1 : rargs.reverseField = none)
    (h2 : rargs.relationType = RelationType.ManyToOne) :
    runOp m (Op.addRelationalField rargs) acc =
      Except.ok (acc ++ [⟨MutationMode.Create, FieldType.RelationalField,
        FieldPayload.relational (addRelationalField m rargs)⟩]) ∧
    (addRelationalField m rargs).reverseField.apiId = ("related") ++ m ∧
    (addRelationalField m rargs).reverseField.displayName = ("Related ") ++ m ∧
    (addRelationalField m rargs).isList = false ∧
    (addRelationalField m rargs).reverseField.isList = true := by
  refine ⟨rfl, ?_, ?_, ?_, ?_⟩ <;>
    · simp only [addRelationalField, h1, h2]
      split <;> rfl

/-- C2 witness: the amended synthesis evaluated on a model whose apiId is
"author", recovering the scenario's values. -/
theorem reverse_synthesis_witness :
    (addRelationalField ("author")
      { apiId := ("author"), displayName := none, type := none, model := ("User")
        relationType := RelationType.ManyToOne, reverseField := none
        isRequired := none }).reverseField.apiId = ("related") ++ ("author") ∧
    (addRelationalField ("author")
      { apiId := ("author"), displayName := none, type := none, model := ("User")
        relationType := RelationType.ManyToOne, reverseField := none
        isRequired := none }).reverseField.displayName = ("Related ") ++ ("author") :=
  ⟨(reverse_synthesis ("author")
      { apiId := ("author"), displayName := none, type := none, model := ("User")
        relationType := RelationType.ManyToOne, reverseField := none
        isRequired := none } [] (by rfl) (by rfl)).2.1,
   (reverse_synthesis ("author")
      { apiId := ("author"), displayName := none, type := none, model := ("User")
        relationType := RelationType.ManyToOne, reverseField := none
        isRequired := none } [] (by rfl) (by rfl)).2.2.1⟩

/-- C3: every ASSET-resolving call (caller passes type "ASSET" or model
"Asset") emits a reverseField with isList true and isHidden true
regardless of the supplied relationType, and isRequired defaults to false
when the caller did not supply it (and is kept when supplied); every
non-ASSET call emits a payload with no isRequired key even if the caller
supplied one. -/
theorem asset_relation_overrides (m : String) (rargs : RelationalFieldArgs) :
    ((rargs.type = some ("ASSET") ∨ rargs.model = ("Asset")) →
      (addRelationalField m rargs).reverseField.isList = true ∧
      (addRelationalField m rargs).reverseField.isHidden = some true ∧
      (rargs.isRequired = none → (addRelationalField m rargs).isRequired = some false) ∧
      (∀ b : Bool, rargs.isRequired = some b →
        (addRelationalField m rargs).isRequired = some b)) ∧
    (rargs.type ≠ some ("ASSET") → rargs.model ≠ ("Asset") →
      (addRelationalField m rargs).isRequired = none) := by
  constructor
  · intro hcond
    have hty : (if rargs.type = some ("ASSET") ∨ rargs.model = ("Asset")
        then (("ASSET") : String) else ("RELATION")) = ("ASSET") := if_pos hcond
    refine ⟨?_, ?_, ?_, ?_⟩
    · simp [addRelationalField, hty]
    · simp [addRelationalField, hty]
    · intro hr
      simp [addRelationalField, hty, hr]
    · intro b hb
      simp [addRelationalField, hty, hb]
  · intro h1 h2
    have hcond : ¬(rargs.type = some ("ASSET") ∨ rargs.model = ("Asset")) := by
      simp [h1, h2]
    have hra : (("RELATION") : String) ≠ ("ASSET") := by decide
    simp only [addRelationalField]
    rw [if_neg hcond, if_neg hra]

/-- C3 witness: the ASSET overrides on a concrete OneToOne asset call with
no isRequired, and the isRequired stripping on a concrete plain relation
that supplied isRequired. -/
theorem asset_relation_overrides_witness :
    ((addRelationalField ("Post")
      { apiId := ("cover"), displayName := none, type := none, model := ("Asset")
        relationType := RelationType.OneToOne, reverseField := none
        isRequired := none }).reverseField.isList = true ∧
     (addRelationalField ("Post")
      { apiId := ("cover"), displayName := none, type := none, model := ("Asset")
        relationType := RelationType.OneToOne, reverseField := none
        isRequired := none }).reverseField.isHidden = some true) ∧
    ((addRelationalField ("Post")
      { apiId := ("cover"), displayName := none, type := none, model := ("Asset")
        relationType := RelationType.OneToOne, reverseField := none
        isRequired := none }).isRequired = some false ∧
     (addRelationalField ("Post")
      { apiId := ("author"), displayName := none, type := none, model := ("User")
        relationType := RelationType.ManyToOne, reverseField := none
        isRequired := some true }).isRequired = none) := by
  have ha := (asset_relation_overrides ("Post")
    { apiId := ("cover"), displayName := none, type := none, model := ("Asset")
      relationType := RelationType.OneToOne, reverseField := none
      isRequired := none }).1 (Or.inr rfl)
  have hb := (asset_relation_overrides ("Post")
    { apiId := ("author"), displayName := none, type := none, model := ("User")
      relationType := RelationType.ManyToOne, reverseField := none
      isRequired := some true }).2 (by decide) (by decide)
  exact ⟨⟨ha.1, ha.2.1⟩, ⟨ha.2.2.1 rfl, hb⟩⟩

/-- C4: every call to addUnionField whose models argument is absent or an
empty list fails with the error "models cannot be empty" and registers
nothing: the accumulator is exactly what it was before the call. -/
theorem union_empty_models_fails (m : String) (uargs : UnionFieldArgs)
    (acc : List ChangeItem)
    (h : uargs.models = none ∨ uargs.models = some []) :
    runOp m (Op.addUnionField uargs) acc = Except.error ("models cannot be empty") ∧
    runOpOrKeep m (Op.addUnionField uargs) acc = acc := by
  have herr : addUnionField m uargs = Except.error ("models cannot be empty") := by
    rcases h with h | h <;> simp [addUnionField, h]
  constructor
  · simp [runOp, herr]
  · simp [runOpOrKeep, runOp, herr]

/-- C4 witness: the scenario's call addUnionField(apiId "content", empty
model list) on an empty accumulator. -/
theorem union_empty_models_fails_witness :
    runOp ("Post") (Op.addUnionField
      { apiId := ("content"), displayName := none, models := some []
        relationType := RelationType.OneToMany, reverseField := none }) [] =
      Except.error ("models cannot be empty") ∧
    runOpOrKeep ("Post") (Op.addUnionField
      { apiId := ("content"), displayName := none, models := some []
        relationType := RelationType.OneToMany, reverseField := none }) [] = [] :=
  union_empty_models_fails ("Post")
    { apiId := ("content"), displayName := none, models := some []
      relationType := RelationType.OneToMany, reverseField := none } []
    (Or.inr rfl)

/-- C5: hasChanges returns true for Create-mode and Delete-mode items; for
Update mode it returns true iff the payload carries at least one key
besides apiId, and in particular returns false for the payload whose
only key is apiId. -/
theorem hasChanges_spec (keys : List String)
    (hmem : ("apiId") ∈ keys) (hnd : keys.Nodup) :
    hasChanges MutationMode.Create keys = true ∧
    hasChanges MutationMode.Delete keys = true ∧
    hasChanges MutationMode.Update [("apiId")] = false ∧
    (hasChanges MutationMode.Update keys = true ↔
      ∃ k ∈ keys, k ≠ ("apiId")) := by
  refine ⟨rfl, rfl, rfl, ?_⟩
  have hred : hasChanges MutationMode.Update keys = true ↔ 1 < keys.length := by
    simp [hasChanges]
  rw [hred]
  constructor
  · intro hlen
    match keys, hmem, hnd, hlen with
    | a :: b :: t, hmem, hnd, hlen =>
        rw [List.nodup_cons] at hnd
        have hab : a ≠ b := fun h => hnd.1 (h ▸ List.mem_cons_self b t)
        by_cases ha : a = ("apiId")
        · exact ⟨b, List.mem_cons_of_mem a (List.mem_cons_self b t),
            fun hb => hab (ha.trans hb.symm)⟩
        · exact ⟨a, List.mem_cons_self a (b :: t), ha⟩
  · rintro ⟨k, hk, hkne⟩
    match keys, hmem, hk with
    | [a], hmem, hk =>
        rw [List.mem_singleton] at hmem hk
        exact absurd (hk.trans hmem.symm) hkne
    | a :: b :: t, hmem, hk =>
        simp [List.length_cons]

/-- C5 witness: an Update payload with the extra key displayName is
effective; the bare apiId Update payload is not. -/
theorem hasChanges_spec_witness :
    hasChanges MutationMode.Update [("apiId"), ("displayName")] = true ∧
    hasChanges MutationMode.Update [("apiId")] = false := by
  have h := hasChanges_spec [("apiId"), ("displayName")] (by decide) (by decide)
  exact ⟨h.2.2.2.mpr ⟨("displayName"), by decide, by decide⟩, h.2.2.1⟩

/-- Every successful updateSimpleField payload carries no type key. -/
theorem updateSimpleField_ok_type_none (m : String) (a : SimpleFieldArgs)
    (p : SimpleFieldPayload) (h : updateSimpleField m a = Except.ok p) :
    p.type = none := by
  unfold updateSimpleField at h
  cases hv : a.validations with
  | none =>
      rw [hv] at h
      rw [Except.ok.injEq] at h
      rw [← h]
  | some v =>
      rw [hv] at h
      cases he : extractFieldValidations a with
      | error e => rw [he] at h; exact absurd h (by simp)
      | ok w =>
          rw [he] at h
          rw [Except.ok.injEq] at h
          rw [← h]

/-- C6: the payload of the Update-mode change item registered by every
successful updateSimpleField call contains no type attribute, even when
the caller supplied one. -/
theorem update_drops_type (m : String) (a : SimpleFieldArgs)
    (acc acc' : List ChangeItem)
    (h : runOp m (Op.updateSimpleField a) acc = Except.ok acc') :
    ∃ p : SimpleFieldPayload,
      acc' = acc ++ [⟨MutationMode.Update, FieldType.SimpleField,
        FieldPayload.simple p⟩] ∧ p.type = none := by
  simp only [runOp] at h
  cases hu : updateSimpleField m a with
  | error e => rw [hu] at h; exact absurd h (by simp)
  | ok p =>
      rw [hu] at h
      rw [Except.ok.injEq] at h
      exact ⟨p, h.symm, updateSimpleField_ok_type_none m a p hu⟩

/-- C6 witness: an update that supplies a type still emits none. -/
theorem update_drops_type_witness :
    ∃ p : SimpleFieldPayload,
      ([(⟨MutationMode.Update, FieldType.SimpleField, FieldPayload.simple
        { apiId := ("title"), displayName := some ("Title"), type := none
          isList := none, isRequired := none, validations := none
          formRenderer := none, modelApiId := ("Post") }⟩ : ChangeItem)] : List ChangeItem) =
        [] ++ [⟨MutationMode.Update, FieldType.SimpleField,
          FieldPayload.simple p⟩] ∧ p.type = none :=
  update_drops_type ("Post")
    { apiId := ("title"), displayName := some ("Title")
      type := some GraphQLSimpleFieldType.String, isList := none
      isRequired := none, validations := none, formRenderer := none } []
    [⟨MutationMode.Update, FieldType.SimpleField, FieldPayload.simple
      { apiId := ("title"), displayName := some ("Title"), type := none
        isList := none, isRequired := none, validations := none
        formRenderer := none, modelApiId := ("Post") }⟩]
    (by rfl)

/-- Normalizing a header value twice is the same as normalizing it once. -/
theorem normalizeHeaderValue_idem (v : HeaderValue) :
    normalizeHeaderValue (normalizeHeaderValue v) = normalizeHeaderValue v := by
  cases v <;> rfl

/-- C7: addRemoteField's header normalization maps a list value to the
same list and wraps a scalar into a one-element list, so it is idempotent
on whole header mappings; an absent headers mapping defaults to the empty
mapping and an absent remoteConfig.method defaults to GET. -/
theorem remote_header_normalization (m : String) (a b : RemoteFieldArgs)
    (s : String) (l : List String) (hs : List (String × HeaderValue)) :
    normalizeHeaderValue (HeaderValue.list l) = HeaderValue.list l ∧
    normalizeHeaderValue (HeaderValue.scalar s) = HeaderValue.list [s] ∧
    normalizeHeaders (normalizeHeaders hs) = normalizeHeaders hs ∧
    (a.remoteConfig.headers = some hs →
      (addRemoteField m a).remoteConfig.headers = normalizeHeaders hs) ∧
    (b.remoteConfig.headers = none →
      (addRemoteField m b).remoteConfig.headers = []) ∧
    (a.remoteConfig.method = none →
      (addRemoteField m a).remoteConfig.method = ("GET")) := by
  refine ⟨rfl, rfl, ?_, ?_, ?_, ?_⟩
  · induction hs with
    | nil => rfl
    | cons kv t ih =>
        simp [normalizeHeaders, normalizeHeaderValue_idem] at ih ⊢
  · intro h
    simp [addRemoteField, h]
  · intro h
    simp [addRemoteField, h]
  · intro h
    simp [addRemoteField, h]

/-- C7 witness: scenario D's call with a scalar X-Key header and no
method, plus a call with no headers at all. -/
theorem remote_header_normalization_witness :
    normalizeHeaders (normalizeHeaders [(("X-Key"), HeaderValue.scalar ("abc"))]) =
      normalizeHeaders [(("X-Key"), HeaderValue.scalar ("abc"))] ∧
    (addRemoteField ("Post")
      { apiId := ("weather"), displayName := none
        remoteConfig := { url := ("https://api.example.com")
                          method := none
                          headers := some [(("X-Key"), HeaderValue.scalar ("abc"))]
                          payloadFieldApiIds := none } }).remoteConfig.headers =
      normalizeHeaders [(("X-Key"), HeaderValue.scalar ("abc"))] ∧
    (addRemoteField ("Post")
      { apiId := ("weather"), displayName := none
        remoteConfig := { url := ("https://api.example.com")
                          method := none
                          headers := some [(("X-Key"), HeaderValue.scalar ("abc"))]
                          payloadFieldApiIds := none } }).remoteConfig.method = ("GET") ∧
    (addRemoteField ("Post")
      { apiId := ("plain"), displayName := none
        remoteConfig := { url := ("https://api.example.com")
                          method := none
                          headers := none
                          payloadFieldApiIds := none } }).remoteConfig.headers = [] := by
  have h := remote_header_normalization ("Post")
    { apiId := ("weather"), displayName := none
      remoteConfig := { url := ("https://api.example.com")
                        method := none
                        headers := some [(("X-Key"), HeaderValue.scalar ("abc"))]
                        payloadFieldApiIds := none } }
    { apiId := ("plain"), displayName := none
      remoteConfig := { url := ("https://api.example.com")
                        method := none
                        headers := none
                        payloadFieldApiIds := none } }
    ("abc") [("abc")] [(("X-Key"), HeaderValue.scalar ("abc"))]
  exact ⟨h.2.2.1, h.2.2.2.1 rfl, h.2.2.2.2.2 rfl, h.2.2.2.2.1 rfl⟩

/-- C8: the validation extractor, on Int- and Float-typed fields, produces
the numeric branch carrying the requested range, with a listItemCount key
exactly when the field is list-valued; on String-typed fields it produces
the string branch carrying the requested characters, matches and
notMatches, with listItemCount exactly when list-valued; and on every
other declared type it fails with an error. -/
theorem extract_validations_spec (a : SimpleFieldArgs) :
    (a.type = some GraphQLSimpleFieldType.Int →
      ∃ v nv, extractFieldValidations a = Except.ok v ∧ v.Int = some nv ∧
        nv.range = a.validations.bind (fun x => x.range) ∧
        (nv.listItemCount ≠ none ↔ a.isList.getD false = true)) ∧
    (a.type = some GraphQLSimpleFieldType.Float →
      ∃ v nv, extractFieldValidations a = Except.ok v ∧ v.Float = some nv ∧
        nv.range = a.validations.bind (fun x => x.range) ∧
        (nv.listItemCount ≠ none ↔ a.isList.getD false = true)) ∧
    (a.type = some GraphQLSimpleFieldType.String →
      ∃ v sv, extractFieldValidations a = Except.ok v ∧ v.String = some sv ∧
        sv.characters = a.validations.bind (fun x => x.characters) ∧
        sv.«matches» = a.validations.bind (fun x => x.«matches») ∧
        sv.notMatches = a.validations.bind (fun x => x.notMatches) ∧
        (sv.listItemCount ≠ none ↔ a.isList.getD false = true)) ∧
    (a.type ≠ some GraphQLSimpleFieldType.Int →
      a.type ≠ some GraphQLSimpleFieldType.Float →
      a.type ≠ some GraphQLSimpleFieldType.String →
      ∃ e, extractFieldValidations a = Except.error e) := by
  refine ⟨?_, ?_, ?_, ?_⟩
  · intro h
    unfold extractFieldValidations
    rw [h]
    refine ⟨_, _, rfl, rfl, rfl, ?_⟩
    cases hc : a.isList.getD false <;> simp [hc]
  · intro h
    unfold extractFieldValidations
    rw [h]
    refine ⟨_, _, rfl, rfl, rfl, ?_⟩
    cases hc : a.isList.getD false <;> simp [hc]
  · intro h
    unfold extractFieldValidations
    rw [h]
    refine ⟨_, _, rfl, rfl, rfl, rfl, rfl, ?_⟩
    cases hc : a.isList.getD false <;> simp [hc]
  · intro h1 h2 h3
    unfold extractFieldValidations
    cases ht : a.type with
    | none => exact ⟨_, rfl⟩
    | some t =>
        cases t with
        | Int => exact absurd ht h1
        | Float => exact absurd ht h2
        | String => exact absurd ht h3
        | Boolean => exact ⟨_, rfl⟩
        | Date => exact ⟨_, rfl⟩
        | Datetime => exact ⟨_, rfl⟩
        | Json => exact ⟨_, rfl⟩
        | Location => exact ⟨_, rfl⟩
        | Color => exact ⟨_, rfl⟩

/-- C8 witness: a list-valued Int field with a range and listItemCount
request, and a Json-typed field whose validation request fails. -/
theorem extract_validations_spec_witness :
    (∃ v nv, extractFieldValidations
      { apiId := ("rating"), displayName := none
        type := some GraphQLSimpleFieldType.Int, isList := some true
        isRequired := none
        validations := some
          { range := some { min := some 1, max := some 5 }
            characters := none
            listItemCount := some { min := some 1, max := some 10 }
            «matches» := none, notMatches := none }
        formRenderer := none } = Except.ok v ∧ v.Int = some nv ∧
        nv.range = (some
          { range := some { min := some 1, max := some 5 }
            characters := none
            listItemCount := some { min := some 1, max := some 10 }
            «matches» := none
            notMatches := none } : Option FieldValidationArgs).bind
            (fun x => x.range) ∧
        (nv.listItemCount ≠ none ↔
          (some true : Option Bool).getD false = true)) ∧
    (∃ e, extractFieldValidations
      { apiId := ("meta"), displayName := none
        type := some GraphQLSimpleFieldType.Json, isList := none
        isRequired := none
        validations := some
          { range := none, characters := none, listItemCount := none
            «matches» := none, notMatches := none }
        formRenderer := none } = Except.error e) :=
  ⟨(extract_validations_spec
      { apiId := ("rating"), displayName := none
        type := some GraphQLSimpleFieldType.Int, isList := some true
        isRequired := none
        validations := some
          { range := some { min := some 1, max := some 5 }
            characters := none
            listItemCount := some { min := some 1, max := some 10 }
            «matches» := none, notMatches := none }
        formRenderer := none }).1 rfl,
   (extract_validations_spec
      { apiId := ("meta"), displayName := none
        type := some GraphQLSimpleFieldType.Json, isList := none
        isRequired := none
        validations := some
          { range := none, characters := none, listItemCount := none
            «matches» := none, notMatches := none }
        formRenderer := none }).2.2.2 (by decide) (by decide) (by decide)⟩

/-- C9: every builder operation that completes without error appends
exactly one change item to the accumulator: the list after a successful
call is the prior list with the new item appended at the end, so the
previously registered items and their order are preserved. -/
theorem op_appends_one (m : String) (op : Op) (acc acc' : List ChangeItem)
    (h : runOp m op acc = Except.ok acc') :
    ∃ item : ChangeItem, acc' = acc ++ [item] := by
  cases op with
  | addSimpleField a =>
      simp only [runOp] at h
      cases hp : addSimpleField m a with
      | error e => rw [hp] at h; exact absurd h (by simp)
      | ok p => rw [hp] at h; rw [Except.ok.injEq] at h; exact ⟨_, h.symm⟩
  | addRemoteField a =>
      simp only [runOp] at h; rw [Except.ok.injEq] at h; exact ⟨_, h.symm⟩
  | updateSimpleField a =>
      simp only [runOp] at h
      cases hp : updateSimpleField m a with
      | error e => rw [hp] at h; exact absurd h (by simp)
      | ok p => rw [hp] at h; rw [Except.ok.injEq] at h; exact ⟨_, h.symm⟩
  | addRelationalField a =>
      simp only [runOp] at h; rw [Except.ok.injEq] at h; exact ⟨_, h.symm⟩
  | addUnionField a =>
      simp only [runOp] at h
      cases hp : addUnionField m a with
      | error e => rw [hp] at h; exact absurd h (by simp)
      | ok p => rw [hp] at h; rw [Except.ok.injEq] at h; exact ⟨_, h.symm⟩
  | updateRelationalField a =>
      simp only [runOp] at h; rw [Except.ok.injEq] at h; exact ⟨_, h.symm⟩
  | updateUnionField a =>
      simp only [runOp] at h; rw [Except.ok.injEq] at h; exact ⟨_, h.symm⟩
  | addEnumerableField a =>
      simp only [runOp] at h
      cases hp : addEnumerableField m a with
      | error e => rw [hp] at h; exact absurd h (by simp)
      | ok p => rw [hp] at h; rw [Except.ok.injEq] at h; exact ⟨_, h.symm⟩
  | updateEnumerableField a =>
      simp only [runOp] at h; rw [Except.ok.injEq] at h; exact ⟨_, h.symm⟩
  | deleteField apiId =>
      simp only [runOp] at h; rw [Except.ok.injEq] at h; exact ⟨_, h.symm⟩

/-- C9 witness: a deleteField call on a one-item accumulator appends
exactly one item after the existing one. -/
theorem op_appends_one_witness :
    ∃ item : ChangeItem,
      ([⟨MutationMode.Create, FieldType.SimpleField, FieldPayload.deleted
          { apiId := ("seed"), modelApiId := ("Post") }⟩,
        ⟨MutationMode.Delete, FieldType.SimpleField, FieldPayload.deleted
          { apiId := ("title"), modelApiId := ("Post") }⟩] : List ChangeItem) =
      [⟨MutationMode.Create, FieldType.SimpleField, FieldPayload.deleted
          { apiId := ("seed"), modelApiId := ("Post") }⟩] ++ [item] :=
  op_appends_one ("Post") (Op.deleteField ("title"))
    [⟨MutationMode.Create, FieldType.SimpleField, FieldPayload.deleted
        { apiId := ("seed"), modelApiId := ("Post") }⟩]
    [⟨MutationMode.Create, FieldType.SimpleField, FieldPayload.deleted
        { apiId := ("seed"), modelApiId := ("Post") }⟩,
      ⟨MutationMode.Delete, FieldType.SimpleField, FieldPayload.deleted
        { apiId := ("title"), modelApiId := ("Post") }⟩]
    (by rfl)

/-- C10: every updateSimpleField call whose arguments carry a validations
object but no type attribute fails inside the validation extractor's
unsupported-type branch (the JS template stringifies the missing type as
undefined) and registers nothing with the accumulator. -/
theorem update_validations_require_type (m : String) (a : SimpleFieldArgs)
    (acc : List ChangeItem)
    (h1 : a.validations ≠ none) (h2 : a.type = none) :
    runOp m (Op.updateSimpleField a) acc =
      Except.error (("field validations not supported for undefined")) ∧
    runOpOrKeep m (Op.updateSimpleField a) acc = acc := by
  have he : extractFieldValidations a =
      Except.error (("field validations not supported for undefined")) := by
    unfold extractFieldValidations
    rw [h2]
    rfl
  cases hv : a.validations with
  | none => exact absurd hv h1
  | some v =>
      have hu : updateSimpleField m a =
          Except.error (("field validations not supported for undefined")) := by
        unfold updateSimpleField
        rw [hv, he]
      constructor
      · simp only [runOp]
        rw [hu]
      · simp only [runOpOrKeep, runOp]
        rw [hu]

/-- C10 witness: an update supplying a range validation but no type fails
and leaves a one-item accumulator unchanged. -/
theorem update_validations_require_type_witness :
    runOp ("Post") (Op.updateSimpleField
      { apiId := ("rating"), displayName := none, type := none
        isList := none, isRequired := none
        validations := some
          { range := some { min := some 1, max := some 5 }
            characters := none, listItemCount := none
            «matches» := none, notMatches := none }
        formRenderer := none })
      [⟨MutationMode.Delete, FieldType.SimpleField, FieldPayload.deleted
          { apiId := ("seed"), modelApiId := ("Post") }⟩] =
      Except.error (("field validations not supported for undefined")) ∧
    runOpOrKeep ("Post") (Op.updateSimpleField
      { apiId := ("rating"), displayName := none, type := none
        isList := none, isRequired := none
        validations := some
          { range := some { min := some 1, max := some 5 }
            characters := none, listItemCount := none
            «matches» := none, notMatches := none }
        formRenderer := none })
      [⟨MutationMode.Delete, FieldType.SimpleField, FieldPayload.deleted
          { apiId := ("seed"), modelApiId := ("Post") }⟩] =
      [⟨MutationMode.Delete, FieldType.SimpleField, FieldPayload.deleted
          { apiId := ("seed"), modelApiId := ("Post") }⟩] :=
  update_validations_require_type ("Post")
    { apiId := ("rating"), displayName := none, type := none
      isList := none, isRequired := none
      validations := some
        { range := some { min := some 1, max := some 5 }
          characters := none, listItemCount := none
          «matches» := none, notMatches := none }
      formRenderer := none }
    [⟨MutationMode.Delete, FieldType.SimpleField, FieldPayload.deleted
        { apiId := ("seed"), modelApiId := ("Post") }⟩]
    (by simp) rfl

end ManagementSdk
